import Mathlib

/-!
Verification of the boto3 documentation/resource-model layer.

Shallow embedding of the Python sources:
  boto3/__init__.py      (default-session management)
  boto3/utils.py         (inject_attribute, LazyLoadedWaiterModel)
  boto3/docs/base.py     (BotocoreSignatureMixin, BaseDocumenter)
  boto3/docs/action.py   (ActionDocumenter, document_action, ...)
  boto3/docs/method.py   (document_model_driven_resource_method)
  boto3/docs/collection.py (document_batch_action, document_collection_method)

External collaborators (botocore's model and doc toolkit: xform_name,
get_service_module_name, document_model_driven_method, the session's
get_waiter_model, and boto3.docs.utils helpers that are not part of the
source set) are taken as parameters of the embedded functions, so every
theorem holds for arbitrary behaviour of those collaborators.

Python dictionaries whose keys are strings are embedded as association
lists in insertion order; a dict built by repeated assignment resolves a
key to the last value assigned, hence lookups on the reversed list.
-/

/-! ### String ordering (Python `sorted` on str compares code points) -/

def lexLe : List Char → List Char → Bool
  | [], _ => true
  | _ :: _, [] => false
  | a :: as, b :: bs => if a = b then lexLe as bs else decide (a < b)

def strLe (a b : String) : Bool := lexLe a.data b.data

/-- Python `sorted` on a list of strings (a stable comparison sort; the
result is characterised below as sorted and a permutation of the input). -/
def sortStrings (l : List String) : List String :=
  List.insertionSort (fun a b => strLe a b = true) l

theorem lexLe_trans : ∀ a b c, lexLe a b = true → lexLe b c = true → lexLe a c = true
  | [], _, _, _, _ => rfl
  | _ :: _, [], _, h1, _ => by simp [lexLe] at h1
  | _ :: _, _ :: _, [], _, h2 => by simp [lexLe] at h2
  | a :: as, b :: bs, c :: cs, h1, h2 => by
    simp only [lexLe] at h1 h2 ⊢
    by_cases hab : a = b <;> by_cases hbc : b = c
    · subst hab; subst hbc
      simp only [if_pos rfl] at h1 h2 ⊢
      exact lexLe_trans as bs cs h1 h2
    · subst hab
      simp only [if_pos rfl, if_neg hbc] at h1 h2 ⊢
      exact h2
    · subst hbc
      simp only [if_pos rfl, if_neg hab] at h1 h2 ⊢
      exact h1
    · simp only [if_neg hab, if_neg hbc, decide_eq_true_iff] at h1 h2
      have hac : a ≠ c := by
        intro h; subst h
        exact absurd (lt_trans h1 h2) (lt_irrefl a)
      simp only [if_neg hac, decide_eq_true_iff]
      exact lt_trans h1 h2

theorem lexLe_total : ∀ a b, (lexLe a b || lexLe b a) = true
  | [], _ => by simp [lexLe]
  | _ :: _, [] => by simp [lexLe]
  | a :: as, b :: bs => by
    simp only [lexLe]
    by_cases hab : a = b
    · subst hab; simp only [if_pos rfl]; exact lexLe_total as bs
    · have hba : b ≠ a := fun h => hab h.symm
      simp only [if_neg hab, if_neg hba, decide_eq_true_iff]
      rcases lt_or_gt_of_ne hab with h | h
      · simp [h]
      · simp [h]

theorem strLe_trans (a b c : String) :
    strLe a b = true → strLe b c = true → strLe a c = true :=
  lexLe_trans a.data b.data c.data

theorem strLe_total (a b : String) : (strLe a b || strLe b a) = true :=
  lexLe_total a.data b.data

instance : IsTrans String (fun a b => strLe a b = true) :=
  ⟨fun a b c => strLe_trans a b c⟩

instance : IsTotal String (fun a b => strLe a b = true) :=
  ⟨fun a b => by simpa [Bool.or_eq_true] using strLe_total a b⟩

/-! ### Substring test (Python `pat in s`) -/

def seqStarts : List Char → List Char → Bool
  | [], _ => true
  | _ :: _, [] => false
  | a :: as, b :: bs => a = b && seqStarts as bs

def seqContains (pat : List Char) : List Char → Bool
  | [] => seqStarts pat []
  | c :: rest => seqStarts pat (c :: rest) || seqContains pat rest

/-- Python `pat in hay` for strings. -/
def str_contains (hay pat : String) : Bool := seqContains pat.data hay.data

/-! ### Association-list dictionaries -/

/-- A Python dict built by iterating `entries` and assigning `d[k] = v`
resolves a key to the last value assigned to it. -/
def pydict_get {V : Type} (entries : List (String × V)) (k : String) : Option V :=
  List.lookup k entries.reverse

namespace Boto3

/-! ### Model objects consumed from botocore / boto3.resources.model

These are the read-only views the documenters extract fields from.
`ServiceModel.operation_model` is botocore's operation lookup, kept as a
function field so theorems hold for every service model. An operation
model's `service_model.service_name` back-reference is flattened into the
field `service_name`. -/

structure RequestParam where
  target : String
deriving DecidableEq

structure RequestModel where
  operation : String
  params : List RequestParam
deriving DecidableEq

structure Identifier where
  name : String
  path : Option String
deriving DecidableEq

structure ResponseResource where
  type : String
  identifiers : List Identifier
deriving DecidableEq

structure Action where
  name : String
  request : RequestModel
  resource : Option ResponseResource
deriving DecidableEq

def Action.has_resource (a : Action) : Bool := a.resource.isSome

structure Shape where
  members : List String
deriving DecidableEq

structure OperationModel where
  service_name : String
  input_shape : Option Shape
  documentation : String
deriving DecidableEq

structure ServiceModel where
  service_name : String
  operation_model : String → OperationModel

structure Collection where
  name : String
  request : RequestModel
  resource : ResponseResource
  batch_actions : List Action
deriving DecidableEq

structure ResourceModel where
  name : String
  actions : List Action
  load : Option Action
deriving DecidableEq

structure DocumentedShape where
  name : String
  type_name : String
  documentation : String
deriving DecidableEq

/-! ### boto3/utils.py -/

/-- `inject_attribute(class_attributes, name, value)`: raises RuntimeError
when `name` is already a key, otherwise adds the binding. The dict is an
association list with unique keys. -/
def inject_attribute {V : Type} (class_attributes : List (String × V))
    (name : String) (value : V) : Except String (List (String × V)) :=
  if (class_attributes.map Prod.fst).contains name then
    Except.error ("Cannot inject class attribute \"" ++ name ++
      "\", attribute already exists in class dict.")
  else
    Except.ok (class_attributes ++ [(name, value)])

structure Waiter where
  name : String
deriving DecidableEq

structure WaiterModel where
  get_waiter : String → Waiter

structure BotocoreSession where
  get_waiter_model : String → String → WaiterModel

structure LazyLoadedWaiterModel where
  _session : BotocoreSession
  _service_name : String
  _api_version : String

/-- `LazyLoadedWaiterModel.__init__`: stores the three arguments. -/
def LazyLoadedWaiterModel.init (bc_session : BotocoreSession)
    (service_name api_version : String) : LazyLoadedWaiterModel :=
  ⟨bc_session, service_name, api_version⟩

/-- `LazyLoadedWaiterModel.get_waiter`. -/
def LazyLoadedWaiterModel.get_waiter (self : LazyLoadedWaiterModel)
    (waiter_name : String) : Waiter :=
  (self._session.get_waiter_model self._service_name self._api_version).get_waiter
    waiter_name

/-! ### boto3/__init__.py : default-session management

A `Session` object is identified by an allocation id so that distinct
constructions are distinguishable; the module state carries the
`DEFAULT_SESSION` global and the next fresh id. `Session.construct` models
evaluating `Session(**kwargs)`. -/

structure Session where
  sid : Nat
  kwargs : List (String × String)
deriving DecidableEq

structure BotoModuleState where
  DEFAULT_SESSION : Option Session
  next_sid : Nat
deriving DecidableEq

def Session.construct (st : BotoModuleState) (kwargs : List (String × String)) :
    Session × BotoModuleState :=
  (⟨st.next_sid, kwargs⟩, ⟨st.DEFAULT_SESSION, st.next_sid + 1⟩)

/-- `setup_default_session(**kwargs)`: builds a session, stores it in the
`DEFAULT_SESSION` global, returns it. -/
def setup_default_session (st : BotoModuleState)
    (kwargs : List (String × String)) : Session × BotoModuleState :=
  let r := Session.construct st kwargs
  (r.1, { r.2 with DEFAULT_SESSION := some r.1 })

/-- `_get_default_session()`: returns the global when set, otherwise calls
`setup_default_session()` with no arguments. -/
def _get_default_session (st : BotoModuleState) : Session × BotoModuleState :=
  match st.DEFAULT_SESSION with
  | some s => (s, st)
  | none => setup_default_session st []

end Boto3

namespace Boto3

/-! ### boto3/docs/base.py -/

/-- One entry of `inspect.signature(method).parameters`: a parameter name
and its default (`none` models `inspect.Parameter.empty`). -/
structure PyParameter where
  name : String
  default : Option String
deriving DecidableEq

/-- The loop body of `BotocoreSignatureMixin._document_custom_signature`:
first component is the collected `parameters` list, second component the
lines the `print` call emits on stdout. -/
def signature_loop : List PyParameter → List String × List String
  | [] => ([], [])
  | p :: rest =>
    if p.name = "self" ∨ p.name = "cls" then signature_loop rest
    else
      match p.default with
      | none =>
        let r := signature_loop rest
        (p.name :: r.1, r.2)
      | some d =>
        let r := signature_loop rest
        ((p.name ++ "=" ++ d) :: r.1, ("parameter_name " ++ p.name ++ " " ++ d) :: r.2)

/-- `BotocoreSignatureMixin._document_custom_signature`: first component is
the `signature_params` string handed to `start_sphinx_py_method`, second
component is what the function prints to stdout. -/
def _document_custom_signature (params : List PyParameter) : String × List String :=
  (String.intercalate ", " (signature_loop params).1, (signature_loop params).2)

/-- botocore client metadata visible through `resource.meta.client.meta`. -/
structure ClientMeta where
  service_model : ServiceModel

structure Client where
  meta : ClientMeta
  class_docs_name : String

structure ResourceMeta where
  client : Option Client
  resource_model : Option ResourceModel

structure ServiceResource where
  meta : ResourceMeta

structure BaseDocumenter where
  _resource : ServiceResource
  _client : Client
  _resource_model : ResourceModel
  _service_model : ServiceModel
  _resource_name : String
  _service_name : String
  _service_docs_name : String
  member_map : List (String × List String)
  represents_service_resource : Bool

/-- `BaseDocumenter.__init__`: the two `assert` statements fail when the
resource's meta lacks a client or a resource model; otherwise the derived
fields are filled in from the resource's meta. -/
def BaseDocumenter.init (resource : ServiceResource) : Except String BaseDocumenter :=
  match resource.meta.client with
  | none => Except.error "AssertionError"
  | some client =>
    match resource.meta.resource_model with
    | none => Except.error "AssertionError"
    | some resource_model =>
      let service_model := client.meta.service_model
      let resource_name := resource_model.name
      let service_name := service_model.service_name
      Except.ok
        ⟨resource, client, resource_model, service_model, resource_name,
         service_name, client.class_docs_name, [],
         service_name == resource_name⟩

def BaseDocumenter.class_name (d : BaseDocumenter) : String :=
  d._service_docs_name ++ "." ++ d._resource_name

def BaseDocumenter.resource_model (d : BaseDocumenter) : ResourceModel :=
  d._resource_model

def BaseDocumenter.client (d : BaseDocumenter) : Client :=
  d._client

/-! ### boto3/docs/action.py -/

/-- `document_custom_signature` (module level, action.py): joins the
parameter names verbatim. -/
def document_custom_signature (params : List PyParameter) : String :=
  String.intercalate ", " (params.map PyParameter.name)

/-- The call `document_model_driven_resource_method(...)` as issued by
`document_action` / `document_batch_action` / `document_collection_method`;
`examplePfx` is the `example_prefix` argument of the source. -/
structure ResourceMethodDocCall where
  method_name : String
  method_description : Option String
  examplePfx : Option String
  include_input : Option (List DocumentedShape)
  exclude_input : Option (List String)
deriving DecidableEq

/-- The call `document_model_driven_method(...)` as issued by
`document_load_reload_action`; `examplePfx` is `example_prefix`. -/
structure MethodDocCall where
  method_name : String
  method_description : String
  examplePfx : String
deriving DecidableEq

/-- `document_action`. The botocore helpers `xform_name` and
`get_resource_ignore_params` (boto3.docs.utils) are parameters `xform` and
`ignore`. Returns the call made to `document_model_driven_resource_method`. -/
def document_action (xform : String → String)
    (ignore : List RequestParam → List String) (resource_name : String)
    (action_model : Action) (service_model : ServiceModel) : ResourceMethodDocCall :=
  let operation_model := service_model.operation_model action_model.request.operation
  let ignore_params := ignore action_model.request.params
  let example_return_value :=
    match action_model.resource with
    | some res => xform res.type
    | none => "response"
  let example_resource_name := xform resource_name
  let example_resource_name :=
    if service_model.service_name == resource_name then resource_name
    else example_resource_name
  { method_name := action_model.name,
    method_description := some operation_model.documentation,
    examplePfx := some (example_return_value ++ " = " ++ example_resource_name
      ++ "." ++ action_model.name),
    include_input := none,
    exclude_input := some ignore_params }

/-- `document_load_reload_action`. botocore's `get_service_module_name` is
the parameter `service_module_name`. Returns the call made to
`document_model_driven_method`. -/
def document_load_reload_action (xform : String → String)
    (service_module_name : ServiceModel → String) (action_name resource_name : String)
    (load_model : Action) (service_model : ServiceModel) : MethodDocCall :=
  let description :=
    "Calls  :py:meth:`" ++ service_module_name service_model ++ ".Client."
      ++ xform load_model.request.operation
      ++ "` to update the attributes of the " ++ resource_name
      ++ " resource. Note that the load and reload methods are "
      ++ "the same method and can be used interchangeably."
  let example_resource_name := xform resource_name
  let example_resource_name :=
    if service_model.service_name == resource_name then resource_name
    else example_resource_name
  { method_name := action_name,
    method_description := description,
    examplePfx := example_resource_name ++ "." ++ action_name }

/-- What `ActionDocumenter.document_actions` dispatches for one action
name: the load/reload documenter, the modeled-action documenter, or the
custom-method documenter. -/
inductive ActionDoc where
  | load_reload (action_name resource_name : String) (load_model : Option Action)
  | action (resource_name : String) (action_model : Option Action)
  | custom (method_name : String) (method : Option (List PyParameter))
deriving DecidableEq

/-- The body of the loop in `ActionDocumenter.document_actions` for one
`action_name`. `resource_actions` is the dict produced by
`get_resource_public_actions(self._resource.__class__)` (boto3.docs.utils),
given here as the introspected name/signature pairs. -/
def dispatch_action_doc (d : BaseDocumenter)
    (resource_actions : List (String × List PyParameter))
    (action_name : String) : ActionDoc :=
  let modeled_actions := d._resource_model.actions.map (fun a => (a.name, a))
  if (action_name = "load" ∨ action_name = "reload") ∧ d._resource_model.load.isSome then
    ActionDoc.load_reload action_name d._resource_name d._resource_model.load
  else if (modeled_actions.map Prod.fst).contains action_name then
    ActionDoc.action d._resource_name (pydict_get modeled_actions action_name)
  else
    ActionDoc.custom action_name (pydict_get resource_actions action_name)

/-- `ActionDocumenter.document_actions`: returns the updated `member_map`
and, per sorted action name, the documenter dispatched for it. The
`add_resource_type_overview` call only writes fixed text into the section
and is not modelled. -/
def ActionDocumenter.document_actions (d : BaseDocumenter)
    (resource_actions : List (String × List PyParameter)) :
    List (String × List String) × List (String × ActionDoc) :=
  let names := sortStrings (resource_actions.map Prod.fst)
  (d.member_map ++ [("actions", names)],
   names.map (fun action_name => (action_name, dispatch_action_doc d resource_actions action_name)))

end Boto3

namespace Boto3

/-! ### boto3/docs/method.py

The bcdoc `DocumentStructure` is modelled as its named subsections in
order, each with the text events written into it (`style.new_line` is the
event `"\n"`). The external `document_model_driven_method` is a parameter
`dmdm` transforming the section. -/

structure DocSection where
  name : String
  content : List String
deriving DecidableEq

structure DocumentStructure where
  sections : List DocSection
deriving DecidableEq

def DocumentStructure.available_sections (s : DocumentStructure) : List String :=
  s.sections.map DocSection.name

def DocumentStructure.delete_section (s : DocumentStructure) (n : String) :
    DocumentStructure :=
  ⟨s.sections.filter (fun c => c.name != n)⟩

def DocumentStructure.add_new_section (s : DocumentStructure) (n : String)
    (content : List String) : DocumentStructure :=
  ⟨s.sections ++ [⟨n, content⟩]⟩

/-- `_method_returns_resource_method` helper `_method_returns_resource_list`:
true when some identifier has a truthy path containing `"[]"`. -/
def _method_returns_resource_list (resource : ResponseResource) : Bool :=
  resource.identifiers.any (fun identifier =>
    match identifier.path with
    | some p => !(p == "") && str_contains p "[]"
    | none => false)

/-- `document_model_driven_resource_method`: runs the underlying botocore
documenter `dmdm`, then, when the resource action model has a resource,
replaces any existing `return` section with the resource-typed one. -/
def document_model_driven_resource_method (dmdm : DocumentStructure → DocumentStructure)
    (operation_model : OperationModel) (resource_action_model : Action)
    (sect : DocumentStructure) : DocumentStructure :=
  let sect := dmdm sect
  match resource_action_model.resource with
  | none => sect
  | some res =>
    let sect :=
      if (DocumentStructure.available_sections sect).contains "return" then
        DocumentStructure.delete_section sect "return"
      else sect
    let return_resource_type := operation_model.service_name ++ "." ++ res.type
    let return_type := ":py:class:`" ++ return_resource_type ++ "`"
    let return_description := res.type ++ " resource"
    let return_type :=
      if _method_returns_resource_list res then "list(" ++ return_type ++ ")"
      else return_type
    let return_description :=
      if _method_returns_resource_list res then "A list of " ++ res.type ++ " resources"
      else return_description
    DocumentStructure.add_new_section sect "return"
      ["\n", ":rtype: " ++ return_type, "\n", ":returns: " ++ return_description, "\n"]

/-! ### boto3/docs/collection.py -/

/-- `document_batch_action`: the call made to
`document_model_driven_resource_method`. -/
def document_batch_action (xform : String → String)
    (ignore : List RequestParam → List String) (resource_name : String)
    (batch_action_model : Action) (service_model : ServiceModel)
    (collection_model : Collection) : ResourceMethodDocCall :=
  let operation_model := service_model.operation_model batch_action_model.request.operation
  let ignore_params := ignore batch_action_model.request.params
  let example_return_value :=
    match batch_action_model.resource with
    | some res => xform res.type
    | none => "response"
  let example_resource_name := xform resource_name
  let example_resource_name :=
    if service_model.service_name == resource_name then resource_name
    else example_resource_name
  { method_name := batch_action_model.name,
    method_description := some operation_model.documentation,
    examplePfx := some (example_return_value ++ " = " ++ example_resource_name
      ++ "." ++ collection_model.name ++ "." ++ batch_action_model.name),
    include_input := none,
    exclude_input := some ignore_params }

/-- `document_collection_method`: for the four custom action names the call
made to `document_model_driven_resource_method` (the per-name dicts are
looked up with `.get`); any other `action_name` documents nothing. -/
def document_collection_method (xform : String → String)
    (ignore : List RequestParam → List String) (resource_name action_name : String)
    (collection_model : Collection) (service_model : ServiceModel) :
    Option ResourceMethodDocCall :=
  let operation_model := service_model.operation_model collection_model.request.operation
  let underlying_operation_members :=
    match operation_model.input_shape with
    | some shape => shape.members
    | none => []
  let example_resource_name := xform resource_name
  let example_resource_name :=
    if service_model.service_name == resource_name then resource_name
    else example_resource_name
  let custom_action_names := ["all", "filter", "limit", "page_size"]
  let rtype := collection_model.resource.type
  let method_descriptions : List (String × String) :=
    [("all", "Creates an iterable of all " ++ rtype
        ++ " resources in the collection."),
     ("filter", "Creates an iterable of all " ++ rtype
        ++ " resources in the collection filtered by kwargs passed to method."
        ++ "A " ++ rtype ++ " collection will include all resources by "
        ++ "default if no filters are provided, and extreme "
        ++ "caution should be taken when performing actions "
        ++ "on all resources."),
     ("limit", "Creates an iterable up to a specified amount of " ++ rtype
        ++ " resources in the collection."),
     ("page_size", "Creates an iterable of all " ++ rtype
        ++ " resources in the collection, but limits the number of "
        ++ "items returned by each service call by the specified "
        ++ "amount.")]
  let example_prefixes : List (String × String) :=
    [("all", xform rtype ++ "_iterator = " ++ example_resource_name
        ++ "." ++ collection_model.name ++ ".all"),
     ("filter", xform rtype ++ "_iterator = " ++ example_resource_name
        ++ "." ++ collection_model.name ++ ".filter"),
     ("limit", xform rtype ++ "_iterator = " ++ example_resource_name
        ++ "." ++ collection_model.name ++ ".limit"),
     ("page_size", xform rtype ++ "_iterator = " ++ example_resource_name
        ++ "." ++ collection_model.name ++ ".page_size")]
  let include_inputs : List (String × List DocumentedShape) :=
    [("limit", [⟨"count", "integer",
        "The limit to the number of resources in the iterable."⟩]),
     ("page_size", [⟨"count", "integer",
        "The number of items returned by each service call"⟩])]
  let exclude_inputs : List (String × List String) :=
    [("all", underlying_operation_members),
     ("filter", ignore collection_model.request.params),
     ("limit", underlying_operation_members),
     ("page_size", underlying_operation_members)]
  if custom_action_names.contains action_name then
    some { method_name := action_name,
           method_description := List.lookup action_name method_descriptions,
           examplePfx := List.lookup action_name example_prefixes,
           include_input := List.lookup action_name include_inputs,
           exclude_input := List.lookup action_name exclude_inputs }
  else
    none

end Boto3

namespace Boto3

/-! ### Helper lemmas on association-list lookup -/

theorem lookup_append_of_not_key {V : Type} (d tail : List (String × V)) (k : String)
    (h : k ∉ d.map Prod.fst) : List.lookup k (d ++ tail) = List.lookup k tail := by
  induction d with
  | nil => rfl
  | cons p rest ih =>
    simp only [List.map_cons, List.mem_cons, not_or] at h
    simp only [List.cons_append, List.lookup]
    rw [show (k == p.1) = false by simpa using h.1]
    exact ih h.2

theorem lookup_append_single_ne {V : Type} (d : List (String × V)) (n m : String)
    (v : V) (h : m ≠ n) : List.lookup m (d ++ [(n, v)]) = List.lookup m d := by
  induction d with
  | nil =>
    simp only [List.nil_append, List.lookup]
    rw [show (m == n) = false by simpa using h]
  | cons p rest ih =>
    simp only [List.cons_append, List.lookup]
    by_cases hm : m = p.1
    · rw [show (m == p.1) = true by simpa using hm]
    · rw [show (m == p.1) = false by simpa using hm]
      exact ih

/-- Claim C2: `inject_attribute(d, n, v)` raises a RuntimeError exactly when
`n` is already a key of `d`; when it raises nothing is produced (so `d` is
unchanged), and when it does not raise the result is `d` with the single
binding `n -> v` appended: the key list gains exactly `n`, `n` now maps to
`v`, and every other key maps to what it mapped to in `d`. -/
theorem inject_attribute_spec {V : Type} (d : List (String × V)) (n : String) (v : V) :
    (n ∈ d.map Prod.fst →
      inject_attribute d n v = Except.error ("Cannot inject class attribute \""
        ++ n ++ "\", attribute already exists in class dict."))
    ∧ (n ∉ d.map Prod.fst →
        inject_attribute d n v = Except.ok (d ++ [(n, v)])
        ∧ (d ++ [(n, v)]).map Prod.fst = d.map Prod.fst ++ [n]
        ∧ List.lookup n (d ++ [(n, v)]) = some v
        ∧ ∀ m, m ≠ n → List.lookup m (d ++ [(n, v)]) = List.lookup m d) := by
  constructor
  · intro h
    unfold inject_attribute
    rw [if_pos (by simpa using h)]
  · intro h
    refine ⟨?_, by simp, ?_, ?_⟩
    · unfold inject_attribute
      rw [if_neg (by simpa using h)]
    · rw [lookup_append_of_not_key d [(n, v)] n h]
      simp [List.lookup]
    · intro m hm
      exact lookup_append_single_ne d n m v hm

/-- Witness for C2 at a concrete dict: injecting a fresh key succeeds and
adds exactly that binding; the hypothesis `n` not a key is discharged. -/
theorem inject_attribute_spec_witness :
    "e_tag" ∉ ([("bucket_name", 1), ("key", 2)] : List (String × Nat)).map Prod.fst
    ∧ inject_attribute [("bucket_name", 1), ("key", 2)] "e_tag" 3
        = Except.ok [("bucket_name", 1), ("key", 2), ("e_tag", 3)] := by
  refine ⟨by decide, ?_⟩
  have h := (inject_attribute_spec [("bucket_name", 1), ("key", 2)] "e_tag" 3).2
    (by decide)
  exact h.1

/-- Claim C8: `LazyLoadedWaiterModel.__init__` only stores the given
botocore session, service name and api version, and `get_waiter(w)` returns
exactly `session.get_waiter_model(service_name, api_version).get_waiter(w)`. -/
theorem lazy_loaded_waiter_model_spec (bc_session : BotocoreSession)
    (service_name api_version waiter_name : String) :
    (LazyLoadedWaiterModel.init bc_session service_name api_version)._session
        = bc_session
    ∧ (LazyLoadedWaiterModel.init bc_session service_name api_version)._service_name
        = service_name
    ∧ (LazyLoadedWaiterModel.init bc_session service_name api_version)._api_version
        = api_version
    ∧ (LazyLoadedWaiterModel.init bc_session service_name api_version).get_waiter
          waiter_name
        = (bc_session.get_waiter_model service_name api_version).get_waiter
          waiter_name :=
  ⟨rfl, rfl, rfl, rfl⟩

/-- Claim C3: `_get_default_session` returns the stored `DEFAULT_SESSION`
unchanged when it is set and otherwise creates, stores and returns a new
session; `setup_default_session` always constructs a fresh session (one
distinct from any session allocated before, in particular from any
currently stored default), overwrites `DEFAULT_SESSION` with it, and
returns that same session. -/
theorem default_session_spec (st : BotoModuleState)
    (kwargs : List (String × String)) :
    (∀ s, st.DEFAULT_SESSION = some s → _get_default_session st = (s, st))
    ∧ (st.DEFAULT_SESSION = none →
        (_get_default_session st).1 = ⟨st.next_sid, []⟩
        ∧ ((_get_default_session st).2).DEFAULT_SESSION
            = some (_get_default_session st).1)
    ∧ (setup_default_session st kwargs).1 = ⟨st.next_sid, kwargs⟩
    ∧ ((setup_default_session st kwargs).2).DEFAULT_SESSION
        = some (setup_default_session st kwargs).1
    ∧ ((setup_default_session st kwargs).2).next_sid = st.next_sid + 1
    ∧ (∀ s0, st.DEFAULT_SESSION = some s0 → s0.sid < st.next_sid →
        (setup_default_session st kwargs).1 ≠ s0) := by
  refine ⟨?_, ?_, rfl, rfl, rfl, ?_⟩
  · intro s hs
    unfold _get_default_session
    rw [hs]
  · intro hs
    unfold _get_default_session
    rw [hs]
    exact ⟨rfl, rfl⟩
  · intro s0 _ hlt heq
    have h1 : (setup_default_session st kwargs).1.sid = st.next_sid := rfl
    rw [heq] at h1
    omega

/-- Witness for C3: from a state already holding a default session,
`setup_default_session` installs a session different from the old one, and
from an empty state `_get_default_session` creates and stores one. -/
theorem default_session_spec_witness :
    (setup_default_session ⟨some ⟨0, []⟩, 1⟩ [("region_name", "us-east-1")]).1
        ≠ (⟨0, []⟩ : Session)
    ∧ (_get_default_session ⟨none, 0⟩).1 = ⟨0, []⟩
    ∧ ((_get_default_session ⟨none, 0⟩).2).DEFAULT_SESSION
        = some (_get_default_session ⟨none, 0⟩).1 := by
  refine ⟨?_, ?_, ?_⟩
  · exact (default_session_spec ⟨some ⟨0, []⟩, 1⟩ [("region_name", "us-east-1")]).2.2.2.2.2
      ⟨0, []⟩ rfl (by decide)
  · exact ((default_session_spec ⟨none, 0⟩ []).2.1 rfl).1
  · exact ((default_session_spec ⟨none, 0⟩ []).2.1 rfl).2

end Boto3

namespace Boto3

/-! ### Fixtures: a small concrete service used by the witnesses -/

def svcModelFix : ServiceModel :=
  ⟨"sqs", fun _ => ⟨"sqs", some ⟨["QueueUrl"]⟩, "Deletes the queue."⟩⟩

def clientFix : Client := ⟨⟨svcModelFix⟩, "SQS"⟩

def deleteActionFix : Action := ⟨"delete", ⟨"DeleteQueue", [⟨"QueueUrl"⟩]⟩, none⟩

def rmFix : ResourceModel := ⟨"Queue", [deleteActionFix], none⟩

def resourceFix : ServiceResource := ⟨⟨some clientFix, some rmFix⟩⟩

def resourceNoClientFix : ServiceResource := ⟨⟨none, some rmFix⟩⟩

/-- Claim C4: `BaseDocumenter.__init__` fails with an assertion error when
the resource's meta lacks a client or lacks a resource model; when both are
present it succeeds and `class_name`, `resource_model` and `client` reflect
exactly the given resource's meta. -/
theorem base_documenter_init_spec (r : ServiceResource) :
    ((r.meta.client = none ∨ r.meta.resource_model = none) →
      BaseDocumenter.init r = Except.error "AssertionError")
    ∧ (∀ c m, r.meta.client = some c → r.meta.resource_model = some m →
        ∃ d, BaseDocumenter.init r = Except.ok d
          ∧ BaseDocumenter.class_name d = c.class_docs_name ++ "." ++ m.name
          ∧ BaseDocumenter.resource_model d = m
          ∧ BaseDocumenter.client d = c
          ∧ d._service_model = c.meta.service_model
          ∧ d._resource_name = m.name
          ∧ d._service_name = c.meta.service_model.service_name) := by
  constructor
  · intro h
    cases hc : r.meta.client with
    | none => simp [BaseDocumenter.init, hc]
    | some c =>
      cases hm : r.meta.resource_model with
      | none => simp [BaseDocumenter.init, hc, hm]
      | some m =>
        rcases h with h | h
        · rw [hc] at h; exact absurd h (by simp)
        · rw [hm] at h; exact absurd h (by simp)
  · intro c m hc hm
    refine ⟨⟨r, c, m, c.meta.service_model, m.name,
      c.meta.service_model.service_name, c.class_docs_name, [],
      c.meta.service_model.service_name == m.name⟩, ?_, rfl, rfl, rfl, rfl, rfl, rfl⟩
    simp only [BaseDocumenter.init, hc, hm]

/-- Witness for C4: a resource without a client fails the assertion; the
full fixture resource succeeds and the derived fields are as expected. -/
theorem base_documenter_init_spec_witness :
    BaseDocumenter.init resourceNoClientFix = Except.error "AssertionError"
    ∧ ∃ d, BaseDocumenter.init resourceFix = Except.ok d
        ∧ BaseDocumenter.class_name d = "SQS.Queue"
        ∧ BaseDocumenter.resource_model d = rmFix
        ∧ BaseDocumenter.client d = clientFix := by
  constructor
  · exact (base_documenter_init_spec resourceNoClientFix).1 (Or.inl rfl)
  · obtain ⟨d, h1, h2, h3, h4, -⟩ :=
      (base_documenter_init_spec resourceFix).2 clientFix rmFix rfl rfl
    exact ⟨d, h1, h2.trans (by rfl), h3, h4⟩

/-- Claim C1 (refuted by the code): `_document_custom_signature` is not
side-effect-free beyond the in-memory document: for any method with a
defaulted parameter the leftover debug `print` at boto3/docs/base.py:48
writes a line to stdout. Evaluated at the signature
`(self, Filename, ExtraArgs=None)`. -/
theorem document_custom_signature_prints_to_stdout :
    (_document_custom_signature
        [⟨"self", none⟩, ⟨"Filename", none⟩, ⟨"ExtraArgs", some "None"⟩]).2
      = ["parameter_name ExtraArgs None"]
    ∧ (_document_custom_signature
        [⟨"self", none⟩, ⟨"Filename", none⟩, ⟨"ExtraArgs", some "None"⟩]).2
      ≠ [] := by
  exact ⟨by decide, by decide⟩

theorem signature_loop_fst (params : List PyParameter) :
    (signature_loop params).1
      = (params.filter (fun p => !(p.name == "self" || p.name == "cls"))).map
          (fun p => match p.default with
            | none => p.name
            | some d => p.name ++ "=" ++ d) := by
  induction params with
  | nil => rfl
  | cons p rest ih =>
    simp only [signature_loop, List.filter]
    by_cases h : p.name = "self" ∨ p.name = "cls"
    · rw [if_pos h]
      have hb : (!(p.name == "self" || p.name == "cls")) = false := by
        rcases h with h | h <;> simp [h]
      rw [hb]
      exact ih
    · rw [if_neg h]
      push_neg at h
      have hb : (!(p.name == "self" || p.name == "cls")) = true := by
        simp [h.1, h.2]
      rw [hb]
      cases hd : p.default with
      | none => simp [hd, ih]
      | some d => simp [hd, ih]

/-- Claim C9: `BotocoreSignatureMixin._document_custom_signature` omits
parameters named self/cls and renders defaulted parameters as
`name=default`, while the module-level `document_custom_signature` of
docs/action.py joins every parameter name verbatim with no defaults; on
methods with no defaults and no self/cls parameter the two renderings
coincide. -/
theorem custom_signature_renderers_spec (params : List PyParameter) :
    (_document_custom_signature params).1
      = String.intercalate ", "
          ((params.filter (fun p => !(p.name == "self" || p.name == "cls"))).map
            (fun p => match p.default with
              | none => p.name
              | some d => p.name ++ "=" ++ d))
    ∧ document_custom_signature params
      = String.intercalate ", " (params.map PyParameter.name)
    ∧ ((∀ p ∈ params, p.default = none ∧ p.name ≠ "self" ∧ p.name ≠ "cls") →
        (_document_custom_signature params).1 = document_custom_signature params) := by
  refine ⟨?_, rfl, ?_⟩
  · unfold _document_custom_signature
    rw [signature_loop_fst]
  · intro h
    have hf : params.filter (fun p => !(p.name == "self" || p.name == "cls"))
        = params := by
      apply List.filter_eq_self.mpr
      intro p hp
      obtain ⟨-, h2, h3⟩ := h p hp
      simp [h2, h3]
    have hmap : (params.filter
          (fun p => !(p.name == "self" || p.name == "cls"))).map
          (fun p => match p.default with
            | none => p.name
            | some d => p.name ++ "=" ++ d)
        = params.map PyParameter.name := by
      rw [hf]
      apply List.map_congr_left
      intro p hp
      obtain ⟨h1, -, -⟩ := h p hp
      simp [h1]
    show String.intercalate ", " (signature_loop params).1
      = document_custom_signature params
    rw [signature_loop_fst, hmap]
    rfl

/-- Witness for C9 at the signature `(Filters, DryRun)`: no defaults, no
self/cls, and the two renderers produce the same string. -/
theorem custom_signature_renderers_spec_witness :
    (∀ p ∈ [PyParameter.mk "Filters" none, PyParameter.mk "DryRun" none],
        p.default = none ∧ p.name ≠ "self" ∧ p.name ≠ "cls")
    ∧ (_document_custom_signature
          [PyParameter.mk "Filters" none, PyParameter.mk "DryRun" none]).1
        = document_custom_signature
          [PyParameter.mk "Filters" none, PyParameter.mk "DryRun" none] := by
  refine ⟨by decide, ?_⟩
  exact (custom_signature_renderers_spec
    [PyParameter.mk "Filters" none, PyParameter.mk "DryRun" none]).2.2 (by decide)

end Boto3

namespace Boto3

def docFix : BaseDocumenter :=
  ⟨resourceFix, clientFix, rmFix, svcModelFix, "Queue", "sqs", "SQS", [], false⟩

def rasFix : List (String × List PyParameter) :=
  [("delete", [⟨"self", none⟩]), ("load", [⟨"self", none⟩]),
   ("wait_until_exists", [⟨"self", none⟩])]

/-- Claim C5: `ActionDocumenter.document_actions` processes the resource's
public action names in sorted order (the processed name list is sorted and
a permutation of the input names), records that sorted list under
`member_map["actions"]`, and dispatches each name by the fixed rule:
load/reload names go to the load/reload documenter when the model has a
load action, names of modeled actions go to `document_action`, and all
remaining names are documented as custom methods. -/
theorem document_actions_spec (d : BaseDocumenter)
    (resource_actions : List (String × List PyParameter)) :
    pydict_get (ActionDocumenter.document_actions d resource_actions).1 "actions"
      = some (sortStrings (resource_actions.map Prod.fst))
    ∧ (ActionDocumenter.document_actions d resource_actions).2.map Prod.fst
      = sortStrings (resource_actions.map Prod.fst)
    ∧ List.Pairwise (fun a b => strLe a b = true)
        (sortStrings (resource_actions.map Prod.fst))
    ∧ (sortStrings (resource_actions.map Prod.fst)).Perm
        (resource_actions.map Prod.fst)
    ∧ (∀ n doc, (n, doc) ∈ (ActionDocumenter.document_actions d resource_actions).2 →
        doc = dispatch_action_doc d resource_actions n)
    ∧ (∀ n,
        ((n = "load" ∨ n = "reload") ∧ d._resource_model.load.isSome →
          dispatch_action_doc d resource_actions n
            = ActionDoc.load_reload n d._resource_name d._resource_model.load)
        ∧ (¬((n = "load" ∨ n = "reload") ∧ d._resource_model.load.isSome) →
            (d._resource_model.actions.map Action.name).contains n = true →
            dispatch_action_doc d resource_actions n
              = ActionDoc.action d._resource_name
                  (pydict_get (d._resource_model.actions.map (fun a => (a.name, a))) n))
        ∧ (¬((n = "load" ∨ n = "reload") ∧ d._resource_model.load.isSome) →
            ¬((d._resource_model.actions.map Action.name).contains n = true) →
            dispatch_action_doc d resource_actions n
              = ActionDoc.custom n (pydict_get resource_actions n))) := by
  have hmm : ((d._resource_model.actions.map (fun a => (a.name, a))).map Prod.fst)
      = d._resource_model.actions.map Action.name := by
    simp [List.map_map]
  refine ⟨?_, ?_, ?_, ?_, ?_, ?_⟩
  · show pydict_get (d.member_map ++ [("actions", _)]) "actions" = _
    unfold pydict_get
    rw [List.reverse_append]
    simp [List.lookup]
  · show (List.map _ (sortStrings (resource_actions.map Prod.fst))).map Prod.fst = _
    rw [List.map_map,
      show (Prod.fst ∘ fun action_name =>
          (action_name, dispatch_action_doc d resource_actions action_name)) = id
        from funext (fun _ => rfl),
      List.map_id]
  · exact List.sorted_insertionSort (fun a b => strLe a b = true)
      (resource_actions.map Prod.fst)
  · exact List.perm_insertionSort (fun a b => strLe a b = true)
      (resource_actions.map Prod.fst)
  · intro n doc h
    have h2 : (n, doc) ∈ (sortStrings (resource_actions.map Prod.fst)).map
        (fun action_name => (action_name, dispatch_action_doc d resource_actions action_name)) := h
    obtain ⟨x, -, hx⟩ := List.mem_map.mp h2
    obtain ⟨h3, h4⟩ := Prod.mk.injEq .. ▸ hx
    rw [← h4, ← h3]
  · intro n
    refine ⟨?_, ?_, ?_⟩
    · intro h
      unfold dispatch_action_doc
      rw [if_pos h]
    · intro h1 h2
      unfold dispatch_action_doc
      rw [if_neg h1, if_pos (by rw [hmm]; exact h2)]
    · intro h1 h2
      unfold dispatch_action_doc
      rw [if_neg h1, if_neg (by rw [hmm]; exact h2)]

/-- Witness for C5: with the fixture documenter (one modeled action
`delete`, no load action) and public actions delete/load/wait_until_exists,
the member map records the sorted names, `delete` is dispatched as a
modeled action and `load` (no load model) as a custom method. -/
theorem document_actions_spec_witness :
    pydict_get (ActionDocumenter.document_actions docFix rasFix).1 "actions"
      = some ["delete", "load", "wait_until_exists"]
    ∧ dispatch_action_doc docFix rasFix "delete"
      = ActionDoc.action "Queue" (some deleteActionFix)
    ∧ dispatch_action_doc docFix rasFix "load"
      = ActionDoc.custom "load" (some [⟨"self", none⟩]) := by
  refine ⟨?_, ?_, ?_⟩
  · exact (document_actions_spec docFix rasFix).1.trans (by decide)
  · exact (((document_actions_spec docFix rasFix).2.2.2.2.2 "delete").2.1
      (by decide) (by decide)).trans (by decide)
  · exact (((document_actions_spec docFix rasFix).2.2.2.2.2 "load").2.2
      (by decide) (by decide)).trans (by decide)

end Boto3

namespace Boto3

/-- Claim C6: `document_collection_method` documents a method exactly for
the action names all/filter/limit/page_size; `limit` and `page_size` add a
single integer `count` input; `all`, `limit` and `page_size` exclude the
members of the underlying operation's input shape, while `filter` excludes
the collection request's resource-ignore parameters. -/
theorem document_collection_method_spec (xform : String → String)
    (ignore : List RequestParam → List String) (resource_name action_name : String)
    (coll : Collection) (svc : ServiceModel) :
    (document_collection_method xform ignore resource_name action_name coll svc = none
      ↔ action_name ∉ ["all", "filter", "limit", "page_size"])
    ∧ (action_name = "all" →
        ∃ call, document_collection_method xform ignore resource_name action_name coll svc
            = some call
          ∧ call.include_input = none
          ∧ call.exclude_input = some (match (svc.operation_model coll.request.operation).input_shape with
              | some shape => shape.members
              | none => []))
    ∧ (action_name = "filter" →
        ∃ call, document_collection_method xform ignore resource_name action_name coll svc
            = some call
          ∧ call.include_input = none
          ∧ call.exclude_input = some (ignore coll.request.params))
    ∧ (action_name = "limit" →
        ∃ call, document_collection_method xform ignore resource_name action_name coll svc
            = some call
          ∧ call.include_input = some [⟨"count", "integer",
              "The limit to the number of resources in the iterable."⟩]
          ∧ call.exclude_input = some (match (svc.operation_model coll.request.operation).input_shape with
              | some shape => shape.members
              | none => []))
    ∧ (action_name = "page_size" →
        ∃ call, document_collection_method xform ignore resource_name action_name coll svc
            = some call
          ∧ call.include_input = some [⟨"count", "integer",
              "The number of items returned by each service call"⟩]
          ∧ call.exclude_input = some (match (svc.operation_model coll.request.operation).input_shape with
              | some shape => shape.members
              | none => [])) := by
  refine ⟨?_, ?_, ?_, ?_, ?_⟩
  · constructor
    · intro h hmem
      have hc : (["all", "filter", "limit", "page_size"]).contains action_name = true := by
        simpa using hmem
      simp only [document_collection_method, hc] at h
      simp at h
    · intro hmem
      have hc : (["all", "filter", "limit", "page_size"]).contains action_name = false := by
        simpa using hmem
      simp only [document_collection_method, hc]
      simp
  · intro h; subst h; exact ⟨_, rfl, rfl, rfl⟩
  · intro h; subst h; exact ⟨_, rfl, rfl, rfl⟩
  · intro h; subst h; exact ⟨_, rfl, rfl, rfl⟩
  · intro h; subst h; exact ⟨_, rfl, rfl, rfl⟩

def collFix : Collection :=
  ⟨"queues", ⟨"ListQueues", [⟨"QueueName"⟩]⟩, ⟨"Queue", [⟨"Url", some "QueueUrls[]"⟩]⟩, []⟩

def xformFix : String → String := fun s => "x_" ++ s

def ignoreFix : List RequestParam → List String := fun ps => ps.map RequestParam.target

/-- Witness for C6: with the fixture collection, `limit` documents a method
with the integer `count` input and the input-shape members excluded, while
an unknown name documents nothing. -/
theorem document_collection_method_spec_witness :
    (∃ call, document_collection_method xformFix ignoreFix "Queue" "limit" collFix svcModelFix
        = some call
      ∧ call.include_input = some [⟨"count", "integer",
          "The limit to the number of resources in the iterable."⟩]
      ∧ call.exclude_input = some ["QueueUrl"])
    ∧ document_collection_method xformFix ignoreFix "Queue" "pages" collFix svcModelFix
      = none := by
  constructor
  · obtain ⟨call, h1, h2, h3⟩ :=
      (document_collection_method_spec xformFix ignoreFix "Queue" "limit"
        collFix svcModelFix).2.2.2.1 rfl
    exact ⟨call, h1, h2, h3.trans (by decide)⟩
  · exact (document_collection_method_spec xformFix ignoreFix "Queue" "pages"
      collFix svcModelFix).1.mpr (by decide)

end Boto3

namespace Boto3

theorem delete_return_eq_filter (s : DocumentStructure) :
    (if (DocumentStructure.available_sections s).contains "return" then
        DocumentStructure.delete_section s "return"
      else s).sections
      = s.sections.filter (fun c => c.name != "return") := by
  by_cases h : (DocumentStructure.available_sections s).contains "return" = true
  · rw [if_pos h]; rfl
  · rw [if_neg h]
    symm
    apply List.filter_eq_self.mpr
    intro c hc
    have hmem : "return" ∉ s.sections.map DocSection.name := by
      simpa [DocumentStructure.available_sections] using h
    have : c.name ≠ "return" := by
      intro he
      exact hmem (he ▸ List.mem_map_of_mem DocSection.name hc)
    simpa using this

theorem str_contains_empty_false : str_contains "" "[]" = false := rfl

/-- Claim C7: when the resource action model has a resource,
`document_model_driven_resource_method` deletes any existing `return`
section and appends one whose rtype is `:py:class:` of
`<service_name>.<resource_type>`, wrapped in `list(...)` exactly when some
identifier of the action's resource has a path containing `"[]"`; with no
resource the section produced by the underlying documenter `dmdm` is
returned unchanged. -/
theorem document_model_driven_resource_method_spec
    (dmdm : DocumentStructure → DocumentStructure) (opm : OperationModel)
    (ram : Action) (sect : DocumentStructure) :
    (ram.resource = none →
      document_model_driven_resource_method dmdm opm ram sect = dmdm sect)
    ∧ (∀ res, ram.resource = some res →
        (document_model_driven_resource_method dmdm opm ram sect).sections
          = ((dmdm sect).sections.filter (fun c => c.name != "return"))
            ++ [⟨"return",
                ["\n",
                 ":rtype: " ++ (if _method_returns_resource_list res then
                     "list(" ++ (":py:class:`" ++ (opm.service_name ++ "." ++ res.type)
                       ++ "`") ++ ")"
                   else ":py:class:`" ++ (opm.service_name ++ "." ++ res.type) ++ "`"),
                 "\n",
                 ":returns: " ++ (if _method_returns_resource_list res then
                     "A list of " ++ res.type ++ " resources"
                   else res.type ++ " resource"),
                 "\n"]⟩])
    ∧ (∀ res : ResponseResource,
        _method_returns_resource_list res = true
          ↔ ∃ i ∈ res.identifiers, ∃ p, i.path = some p
              ∧ str_contains p "[]" = true) := by
  refine ⟨?_, ?_, ?_⟩
  · intro h
    simp only [document_model_driven_resource_method, h]
  · intro res hres
    simp only [document_model_driven_resource_method, hres,
      DocumentStructure.add_new_section]
    rw [delete_return_eq_filter (dmdm sect)]
  · intro res
    unfold _method_returns_resource_list
    rw [List.any_eq_true]
    constructor
    · rintro ⟨i, hi, hp⟩
      cases hpath : i.path with
      | none => rw [hpath] at hp; exact absurd hp (by simp)
      | some p =>
        rw [hpath] at hp
        simp only [Bool.and_eq_true] at hp
        exact ⟨i, hi, p, hpath, hp.2⟩
    · rintro ⟨i, hi, p, hpath, hcont⟩
      refine ⟨i, hi, ?_⟩
      rw [hpath]
      simp only [Bool.and_eq_true]
      refine ⟨?_, hcont⟩
      have hne : p ≠ "" := by
        intro he
        subst he
        exact absurd hcont (by rw [str_contains_empty_false]; simp)
      simpa using hne

def dmdmFix : DocumentStructure → DocumentStructure :=
  fun s => DocumentStructure.add_new_section
    (DocumentStructure.add_new_section s "params" [":param QueueUrl:"])
    "return" [":rtype: dict"]

def listActionFix : Action :=
  ⟨"create_queue", ⟨"CreateQueue", [⟨"QueueName"⟩]⟩,
   some ⟨"Queue", [⟨"Url", some "QueueUrls[]"⟩]⟩⟩

/-- Witness for C7: for an action returning a list of Queue resources, the
underlying documenter's `return` section (written by `dmdmFix`) is replaced
by the resource-typed list one. -/
theorem document_model_driven_resource_method_spec_witness :
    (document_model_driven_resource_method dmdmFix
        ⟨"sqs", none, ""⟩ listActionFix ⟨[]⟩).sections
      = [⟨"params", [":param QueueUrl:"]⟩,
         ⟨"return",
          ["\n", ":rtype: list(:py:class:`sqs.Queue`)", "\n",
           ":returns: A list of Queue resources", "\n"]⟩]
    ∧ _method_returns_resource_list ⟨"Queue", [⟨"Url", some "QueueUrls[]"⟩]⟩
      = true := by
  constructor
  · have h := (document_model_driven_resource_method_spec dmdmFix
      ⟨"sqs", none, ""⟩ listActionFix ⟨[]⟩).2.1
      ⟨"Queue", [⟨"Url", some "QueueUrls[]"⟩]⟩ rfl
    exact h.trans (by decide)
  · exact (document_model_driven_resource_method_spec dmdmFix
      ⟨"sqs", none, ""⟩ listActionFix ⟨[]⟩).2.2
      ⟨"Queue", [⟨"Url", some "QueueUrls[]"⟩]⟩ |>.mpr
      ⟨⟨"Url", some "QueueUrls[]"⟩, by decide, "QueueUrls[]", rfl, by decide⟩

end Boto3

namespace Boto3

/-- The claim's rule, stated from the spec's words: the example variable is
the resource name verbatim when it equals the service name, and its
`xform_name` transform otherwise. -/
def example_variable_of_claim (xform : String → String)
    (service_name resource_name : String) : String :=
  if service_name == resource_name then resource_name else xform resource_name

def service_module_name_fix : ServiceModel → String := fun svc => svc.service_name

/-- Claim C10: `document_action`, `document_load_reload_action`,
`document_batch_action` and `document_collection_method` all build their
example prefix around the same example variable — the resource name when it
equals the service name, `xform_name(resource_name)` otherwise — and
`BaseDocumenter.represents_service_resource` is true exactly when service
and resource name coincide. -/
theorem example_variable_rule_spec (xform : String → String)
    (ignore : List RequestParam → List String)
    (service_module_name : ServiceModel → String)
    (resource_name action_name : String) (am : Action) (coll : Collection)
    (svc : ServiceModel) :
    ResourceMethodDocCall.examplePfx (document_action xform ignore resource_name am svc)
      = some ((match am.resource with
          | some res => xform res.type
          | none => "response") ++ " = "
          ++ example_variable_of_claim xform svc.service_name resource_name
          ++ "." ++ am.name)
    ∧ MethodDocCall.examplePfx
        (document_load_reload_action xform service_module_name action_name
          resource_name am svc)
      = example_variable_of_claim xform svc.service_name resource_name
          ++ "." ++ action_name
    ∧ ResourceMethodDocCall.examplePfx
        (document_batch_action xform ignore resource_name am svc coll)
      = some ((match am.resource with
          | some res => xform res.type
          | none => "response") ++ " = "
          ++ example_variable_of_claim xform svc.service_name resource_name
          ++ "." ++ coll.name ++ "." ++ am.name)
    ∧ (document_collection_method xform ignore resource_name "all" coll svc).map
        ResourceMethodDocCall.examplePfx
      = some (some (xform coll.resource.type ++ "_iterator = "
          ++ example_variable_of_claim xform svc.service_name resource_name
          ++ "." ++ coll.name ++ ".all"))
    ∧ (document_collection_method xform ignore resource_name "filter" coll svc).map
        ResourceMethodDocCall.examplePfx
      = some (some (xform coll.resource.type ++ "_iterator = "
          ++ example_variable_of_claim xform svc.service_name resource_name
          ++ "." ++ coll.name ++ ".filter"))
    ∧ (document_collection_method xform ignore resource_name "limit" coll svc).map
        ResourceMethodDocCall.examplePfx
      = some (some (xform coll.resource.type ++ "_iterator = "
          ++ example_variable_of_claim xform svc.service_name resource_name
          ++ "." ++ coll.name ++ ".limit"))
    ∧ (document_collection_method xform ignore resource_name "page_size" coll svc).map
        ResourceMethodDocCall.examplePfx
      = some (some (xform coll.resource.type ++ "_iterator = "
          ++ example_variable_of_claim xform svc.service_name resource_name
          ++ "." ++ coll.name ++ ".page_size"))
    ∧ (∀ r d, BaseDocumenter.init r = Except.ok d →
        d.represents_service_resource = (d._service_name == d._resource_name)
        ∧ (d.represents_service_resource = true
            ↔ d._service_name = d._resource_name)
        ∧ d._service_name = d._service_model.service_name
        ∧ d._resource_name = d._resource_model.name) := by
  refine ⟨rfl, rfl, rfl, rfl, rfl, rfl, rfl, ?_⟩
  intro r d h
  cases hc : r.meta.client with
  | none => rw [BaseDocumenter.init, hc] at h; exact absurd h (by simp)
  | some c =>
    cases hm : r.meta.resource_model with
    | none => simp only [BaseDocumenter.init, hc, hm] at h; exact absurd h (by simp)
    | some m =>
      simp only [BaseDocumenter.init, hc, hm, Except.ok.injEq] at h
      subst h
      refine ⟨rfl, ?_, rfl, rfl⟩
      simp

/-- Witness for C10: on the fixture documenter (built by
`BaseDocumenter.init` on the fixture resource, discharging the hypothesis)
`represents_service_resource` is false since `sqs` differs from `Queue`,
and the `all` collection prefix uses the transformed resource name. -/
theorem example_variable_rule_spec_witness :
    (docFix.represents_service_resource = true
      ↔ docFix._service_name = docFix._resource_name)
    ∧ (document_collection_method xformFix ignoreFix "Queue" "all" collFix
          svcModelFix).map ResourceMethodDocCall.examplePfx
      = some (some ("x_Queue_iterator = x_Queue.queues.all")) := by
  constructor
  · exact ((example_variable_rule_spec xformFix ignoreFix service_module_name_fix
      "Queue" "load" deleteActionFix collFix svcModelFix).2.2.2.2.2.2.2
      resourceFix docFix rfl).2.1
  · exact (example_variable_rule_spec xformFix ignoreFix service_module_name_fix
      "Queue" "load" deleteActionFix collFix svcModelFix).2.2.2.1.trans (by decide)

end Boto3
